import Mathlib

/-!
Verification development for the heatwave "heartbeat monitor" visualization
(`src/routes/+page.svelte`).  The component logic is shallowly embedded:
JavaScript numbers become `ℚ` (so `NaN`-producing divisions are modelled by a
guarded division into `Option`), JS strings become `List Char`, the module-level
mutable variables become one explicit state record `AnimState`, and the
`setTimeout`/`clearTimeout` machinery of the pulse-queue throttler becomes an
explicit table of pending timers acted on by a small transition system whose
events are `queueHeartbeat` calls and timer firings.
-/

/-- Model of a CSS `rgba(r, g, b, a)` color value (the source builds these as
strings; only the four numeric components carry information). -/
structure Color where
  r : ℤ
  g : ℤ
  b : ℤ
  a : ℚ
deriving DecidableEq

/-- Model of `interface HeatwaveData` from the source: one parsed CSV row. -/
structure HeatwaveData where
  startDate : List Char
  endDate : List Char
  duration : ℚ
  tropicalDays : ℚ
  highestTemp : ℚ
deriving DecidableEq

/-- Model of `type HeartbeatParams` from the source. -/
structure HeartbeatParams where
  pHeight : ℚ
  qDepth : ℚ
  rHeight : ℚ
  sDepth : ℚ
  tHeight : ℚ
  color : Color
  opacity : ℚ
  heatwaveData : Option HeatwaveData
  year : List Char
  duration : Option ℚ
deriving DecidableEq

/-- One entry of the `activeHeartbeats` array: a pulse with a draw-in progress,
a fade-out progress and a fading flag. -/
structure ActiveHeartbeat where
  id : ℕ
  params : HeartbeatParams
  progress : ℚ
  fadeProgress : ℚ
  isFading : Bool
deriving DecidableEq

/-- One entry of the `displayedHeartbeats` array (mini bar-chart history). -/
structure DisplayedHeartbeat where
  year : List Char
  temp : ℚ
  date : List Char
deriving DecidableEq

/-- A pending browser timer.  `isRetry = true` for the deferred retry scheduled
in `processHeartbeatQueue` (the one whose id is stored in
`queueProcessingTimeout`), `isRetry = false` for the fire-and-forget next-drain
timer scheduled at the end of `triggerHeartbeat`. -/
structure TimerEntry where
  id : ℕ
  deadline : ℚ
  isRetry : Bool
deriving DecidableEq

/-- Simulated calendar date: year plus 0-based month, as in the JS `Date`
values `new Date(1911, 0, 1)` used by the source (the day is always 1). -/
structure SimDate where
  year : ℤ
  month : ℤ
deriving DecidableEq

/-- The module-level mutable state of the component, gathered in one record.
`pendingTimers`/`nextTimerId` model the browser timer table, and `triggerLog`
is a ghost log recording `(time, params)` at each `triggerHeartbeat` (the time
written to `lastHeartbeatTime`). -/
structure AnimState where
  hasStarted : Bool
  isPaused : Bool
  currentDate : SimDate
  lastMonthUpdateTime : ℚ
  heartbeats : List HeartbeatParams
  activeHeartbeats : List ActiveHeartbeat
  lastHeatwaveInfo : Option HeartbeatParams
  heartbeatIdCounter : ℕ
  displayedHeartbeats : List DisplayedHeartbeat
  allHeatwaves : List HeartbeatParams
  lastHeartbeatTime : ℚ
  heartbeatQueue : List HeartbeatParams
  queueProcessingTimeout : Option ℕ
  pendingTimers : List TimerEntry
  nextTimerId : ℕ
  animationFrame : Option ℕ
  triggerLog : List (ℚ × HeartbeatParams)
deriving DecidableEq

/-- The initial values of the module-level variables (with the loaded
`heartbeats` list as a parameter). -/
def initAnimState (hbs : List HeartbeatParams) : AnimState where
  hasStarted := false
  isPaused := false
  currentDate := { year := 1911, month := 0 }
  lastMonthUpdateTime := 0
  heartbeats := hbs
  activeHeartbeats := []
  lastHeatwaveInfo := none
  heartbeatIdCounter := 0
  displayedHeartbeats := []
  allHeatwaves := []
  lastHeartbeatTime := 0
  heartbeatQueue := []
  queueProcessingTimeout := none
  pendingTimers := []
  nextTimerId := 0
  animationFrame := none
  triggerLog := []

/-- Model of JS `String.prototype.startsWith`: `s.startsWith(pre)`. -/
def jsStartsWith (s pre : List Char) : Bool :=
  decide (pre <+: s)

/-- Digit character of `n % 10`. -/
def digitChar (n : ℤ) : Char :=
  Char.ofNat (48 + (n % 10).toNat)

/-- Four-digit decimal rendering of a year in 1000..9999 (the clock years
1911..2050 all fall in this range). -/
def yearStr (y : ℤ) : List Char :=
  [digitChar (y / 1000), digitChar (y / 100), digitChar (y / 10), digitChar y]

/-- Model of `String(month).padStart(2, "0")` for months 1..12. -/
def monthStr (m : ℤ) : List Char :=
  if m < 10 then ['0', digitChar m] else [digitChar (m / 10), digitChar m]

/-- The clock key `` `${currentDate.getFullYear()}-${String(currentDate.getMonth() + 1).padStart(2, "0")}` ``. -/
def currentYearMonth (d : SimDate) : List Char :=
  yearStr d.year ++ ['-'] ++ monthStr (d.month + 1)

/-- The year-month key of an event record: the first seven characters
`YYYY-MM` of its start date string. -/
def yearMonthKey (hw : HeatwaveData) : List Char :=
  hw.startDate.take 7

/-- Model of `heatwave.startDate.split("-")[0]` - the characters before the
first dash (split always yields at least one part). -/
def yearOf (s : List Char) : List Char :=
  s.takeWhile (fun c => c ≠ '-')

/-- Injected randomness for one `Math.random()`-driven parameter set (per the
spec's design note, randomness is passed in as a capability). -/
structure RandomSource where
  a : ℚ
  b : ℚ
  c : ℚ
  d : ℚ
  e : ℚ
  f : ℚ
  g : ℚ
deriving DecidableEq

/-- Model of `getRandomColor` with its two `Math.random()` draws injected. -/
def getRandomColor (r : RandomSource) : Color where
  r := 255
  g := ⌊r.a * 100⌋
  b := ⌊r.b * 50⌋
  a := 1

/-- Model of `generateRandomHeartbeatParams` (fallback event generator) with
its `Math.random()` draws injected through `r`. -/
def generateRandomHeartbeatParams (r : RandomSource) : HeartbeatParams where
  pHeight := r.a * 20 + 5
  qDepth := r.b * 10 + 2
  rHeight := r.c * 100 + 50
  sDepth := r.d * 30 + 20
  tHeight := r.e * 20 + 10
  color := getRandomColor { r with a := r.f, b := r.g }
  opacity := r.f * 0.5 + 0.5
  heatwaveData := none
  year := ['u', 'n', 'k', 'n', 'o', 'w', 'n']
  duration := none

/-- Model of `generateHeartbeatFromHeatwave`.  The single `Math.random()` draw
(`randomFactor`, source range 0.5..1.0) is injected.  The derived `rHeight`
linearly rescales `highestTemp` clamped to 30..42 onto 50..150. -/
def generateHeartbeatFromHeatwave (randomFactor : ℚ) (heatwave : HeatwaveData) :
    HeartbeatParams :=
  let year := yearOf heatwave.startDate
  let temp := heatwave.highestTemp
  let minTemp : ℚ := 30
  let maxTemp : ℚ := 42
  let minHeight : ℚ := 50
  let maxHeight : ℚ := 150
  let normalizedTemp := min (max (temp - minTemp) 0) (maxTemp - minTemp) / (maxTemp - minTemp)
  let rHeight := minHeight + normalizedTemp * (maxHeight - minHeight)
  let tempRatio := normalizedTemp
  let color : Color :=
    if tempRatio < 0.3 then
      { r := 255, g := 100 + ⌊55 * tempRatio⌋, b := 0, a := 1 }
    else if tempRatio < 0.7 then
      let redProgress := (tempRatio - 0.3) / 0.4
      { r := 255, g := 155 - ⌊100 * redProgress⌋, b := ⌊20 * redProgress⌋, a := 1 }
    else
      let whiteProgress := (tempRatio - 0.7) / 0.3
      let whiteComponent := ⌊100 * whiteProgress⌋
      { r := 255, g := 55 + whiteComponent, b := 20 + whiteComponent * 2, a := 1 }
  { pHeight := 10 + randomFactor * 15
    qDepth := 5 + randomFactor * 10
    rHeight := rHeight
    sDepth := 10 + randomFactor * 15
    tHeight := 15 + randomFactor * 20
    color := color
    opacity := 0.8
    heatwaveData := some heatwave
    year := year
    duration := some heatwave.duration }

/-- Model of the JS numeric expression `x || dflt`: the default is taken when
the value is absent (`undefined`) or equal to 0 (the only falsy finite
number); every other number, negatives included, is kept. -/
def jsOrDefault (x : Option ℚ) (dflt : ℚ) : ℚ :=
  match x with
  | none => dflt
  | some v => if v = 0 then dflt else v

/-- Division guarded against a zero divisor (a JS division by zero would
produce `Infinity`/`NaN`; `none` marks that situation). -/
def safeDiv (a b : ℚ) : Option ℚ :=
  if b = 0 then none else some (a / b)

/-- The horizontal length scale factor computed at the top of
`generateHeartlinePath`: `duration || 5` clamped to 1..30 and linearly mapped
onto 0.6..1.2. -/
def lengthScale (d : Option ℚ) : ℚ :=
  let duration := jsOrDefault d 5
  let minDuration : ℚ := 1
  let maxDuration : ℚ := 30
  let minScale : ℚ := 0.6
  let maxScale : ℚ := 1.2
  let normalizedDuration :=
    min (max (duration - minDuration) 0) (maxDuration - minDuration) / (maxDuration - minDuration)
  minScale + normalizedDuration * (maxScale - minScale)

/-- `lengthScale` with its single division guarded by `safeDiv`. -/
def lengthScaleChecked (d : Option ℚ) : Option ℚ :=
  let duration := jsOrDefault d 5
  let minDuration : ℚ := 1
  let maxDuration : ℚ := 30
  let minScale : ℚ := 0.6
  let maxScale : ℚ := 1.2
  (safeDiv (min (max (duration - minDuration) 0) (maxDuration - minDuration))
      (maxDuration - minDuration)).map
    fun normalizedDuration => minScale + normalizedDuration * (maxScale - minScale)

/-- SVG drawing constants of the component. -/
def svgWidth : ℚ := 800

/-- `baselineY = height / 2` with `height = 300`. -/
def baselineY : ℚ := 150

/-- The anchor points of the clean PQRST path built in `generateHeartlinePath`,
as `(x, y)` coordinate pairs in source order (the source renders exactly these
pairs into an SVG `M`/`L` path string). -/
def heartlinePoints (ls : ℚ) (params : HeartbeatParams) : List (ℚ × ℚ) :=
  let baseLineWidth := svgWidth * 0.8
  let lineWidth := baseLineWidth * ls
  let startX := (svgWidth - lineWidth) / 2
  let cleanPHeight := params.pHeight
  let cleanQDepth := params.qDepth
  let cleanRHeight := params.rHeight
  let cleanSDepth := params.sDepth
  let cleanTHeight := params.tHeight
  [ (startX, baselineY),
    (startX + lineWidth * 0.15, baselineY),
    (startX + lineWidth * 0.2, baselineY),
    (startX + lineWidth * 0.23, baselineY - cleanPHeight * 0.3),
    (startX + lineWidth * 0.25, baselineY - cleanPHeight),
    (startX + lineWidth * 0.27, baselineY - cleanPHeight * 0.3),
    (startX + lineWidth * 0.3, baselineY),
    (startX + lineWidth * 0.32, baselineY),
    (startX + lineWidth * 0.35, baselineY),
    (startX + lineWidth * 0.37, baselineY + cleanQDepth),
    (startX + lineWidth * 0.395, baselineY - cleanRHeight * 0.9),
    (startX + lineWidth * 0.4, baselineY - cleanRHeight),
    (startX + lineWidth * 0.405, baselineY - cleanRHeight * 0.8),
    (startX + lineWidth * 0.43, baselineY + cleanSDepth),
    (startX + lineWidth * 0.45, baselineY),
    (startX + lineWidth * 0.47, baselineY),
    (startX + lineWidth * 0.5, baselineY),
    (startX + lineWidth * 0.53, baselineY),
    (startX + lineWidth * 0.55, baselineY),
    (startX + lineWidth * 0.57, baselineY - cleanTHeight * 0.2),
    (startX + lineWidth * 0.6, baselineY - cleanTHeight * 0.8),
    (startX + lineWidth * 0.62, baselineY - cleanTHeight),
    (startX + lineWidth * 0.65, baselineY - cleanTHeight * 0.6),
    (startX + lineWidth * 0.68, baselineY - cleanTHeight * 0.1),
    (startX + lineWidth * 0.7, baselineY),
    (startX + lineWidth * 0.8, baselineY),
    (startX + lineWidth * 0.9, baselineY),
    (startX + lineWidth, baselineY) ]

/-- Model of `generateHeartlinePath`: the list of path anchor points for the
given parameter set. -/
def generateHeartlinePath (params : HeartbeatParams) : List (ℚ × ℚ) :=
  heartlinePoints (lengthScale params.duration) params

/-- `generateHeartlinePath` with every division guarded: `none` would mark a
division by zero (a `NaN`/`Infinity` coordinate in the JS original). -/
def generateHeartlinePathChecked (params : HeartbeatParams) : Option (List (ℚ × ℚ)) :=
  (lengthScaleChecked params.duration).map fun ls => heartlinePoints ls params

/-- The observable outcome of `loadHeatwaveData`: the loading flag, the
non-fatal warning message, and the resulting heartbeat list. -/
structure LoadOutcome where
  isLoading : Bool
  loadError : Option (List Char)
  heartbeats : List HeartbeatParams
deriving DecidableEq

/-- Model of `loadHeatwaveData`.  The body of the `try` block (fetch, CSV
parse, column lookup, per-row parsing) is abstracted by its outcome
`tryResult`: `.ok` with the parsed heartbeat list, or `.error` with the thrown
message (an exception thrown anywhere before completion).  The `catch` branch
records the message in `loadError` and substitutes 30 synthetic fallback
events (`Array.from({ length: 30 }, () => generateRandomHeartbeatParams())`,
randomness injected through `rnd`); the `finally` branch clears `isLoading`.
The function is total: no error propagates to the caller. -/
def loadHeatwaveData (tryResult : Except (List Char) (List HeartbeatParams))
    (rnd : ℕ → RandomSource) : LoadOutcome :=
  match tryResult with
  | .ok hbs => { isLoading := false, loadError := none, heartbeats := hbs }
  | .error msg =>
      { isLoading := false
        loadError := some msg
        heartbeats := (List.range 30).map fun i => generateRandomHeartbeatParams (rnd i) }

/-- `minHeartbeatInterval = 400` (0.4 seconds minimum spacing). -/
def minHeartbeatInterval : ℚ := 400

/-- Model of `triggerHeartbeat`: creates the new active pulse, records the
trigger time in `lastHeartbeatTime` (and in the ghost `triggerLog`), and -
only when items remain queued - schedules the fire-and-forget next-drain
timer `setTimeout(() => processHeartbeatQueue(), minHeartbeatInterval)`. -/
def triggerHeartbeat (now : ℚ) (heartbeatParams : HeartbeatParams) (s : AnimState) :
    AnimState :=
  let s1 := { s with
    activeHeartbeats := s.activeHeartbeats ++
      [{ id := s.heartbeatIdCounter, params := heartbeatParams,
         progress := 0, fadeProgress := 0, isFading := false }]
    heartbeatIdCounter := s.heartbeatIdCounter + 1
    lastHeartbeatTime := now
    triggerLog := s.triggerLog ++ [(now, heartbeatParams)] }
  if 0 < s1.heartbeatQueue.length then
    { s1 with
      pendingTimers := s1.pendingTimers ++
        [{ id := s1.nextTimerId, deadline := now + minHeartbeatInterval, isRetry := false }]
      nextTimerId := s1.nextTimerId + 1 }
  else s1

/-- Model of `processHeartbeatQueue`: trigger the queue head immediately when
at least `minHeartbeatInterval` has elapsed since the last trigger, otherwise
cancel any previously tracked retry timer (`clearTimeout`) and schedule a new
deferred retry for the remaining wait, storing its id in
`queueProcessingTimeout`. -/
def processHeartbeatQueue (now : ℚ) (s : AnimState) : AnimState :=
  match s.heartbeatQueue with
  | [] => s
  | p :: rest =>
    if minHeartbeatInterval ≤ now - s.lastHeartbeatTime then
      triggerHeartbeat now p { s with heartbeatQueue := rest }
    else
      let delay := minHeartbeatInterval - (now - s.lastHeartbeatTime)
      let s1 :=
        match s.queueProcessingTimeout with
        | some tid => { s with pendingTimers := s.pendingTimers.filter fun t => t.id != tid }
        | none => s
      { s1 with
        pendingTimers := s1.pendingTimers ++
          [{ id := s1.nextTimerId, deadline := now + delay, isRetry := true }]
        queueProcessingTimeout := some s1.nextTimerId
        nextTimerId := s1.nextTimerId + 1 }

/-- Model of `queueHeartbeat`: append to the FIFO queue, then drain. -/
def queueHeartbeat (now : ℚ) (heartbeatParams : HeartbeatParams) (s : AnimState) :
    AnimState :=
  processHeartbeatQueue now { s with heartbeatQueue := s.heartbeatQueue ++ [heartbeatParams] }

/-- A pending timer with id `tid` fires at time `now`: it leaves the timer
table and its callback `processHeartbeatQueue` runs. -/
def fireTimer (now : ℚ) (tid : ℕ) (s : AnimState) : AnimState :=
  processHeartbeatQueue now { s with pendingTimers := s.pendingTimers.filter fun t => t.id != tid }

/-- The externally visible events of the pulse-queue throttler: an enqueue
call at some time, or the firing of a pending timer. -/
inductive ThrottleEvent where
  | enqueue (now : ℚ) (p : HeartbeatParams)
  | fire (now : ℚ) (tid : ℕ)
deriving DecidableEq

/-- The real-clock time at which an event happens. -/
def eventTime : ThrottleEvent → ℚ
  | .enqueue now _ => now
  | .fire now _ => now

/-- State transition of one event. -/
def stepEvent : ThrottleEvent → AnimState → AnimState
  | .enqueue now p, s => queueHeartbeat now p s
  | .fire now tid, s => fireTimer now tid s

/-- Whether an event can happen in state `s`: an enqueue always can; a timer
can fire only if it is pending and its deadline has been reached. -/
def eventOk : ThrottleEvent → AnimState → Bool
  | .enqueue _ _, _ => true
  | .fire now tid, s => s.pendingTimers.any fun t => t.id == tid && decide (t.deadline ≤ now)

/-- Run a trace of events. -/
def runTrace (s : AnimState) (tr : List ThrottleEvent) : AnimState :=
  tr.foldl (fun s e => stepEvent e s) s

/-- A trace is valid from time `T` and state `s` when event times are
non-decreasing (the clock `performance.now()` is monotone) and every event is
possible in the state it acts on. -/
def validFrom : ℚ → AnimState → List ThrottleEvent → Bool
  | _, _, [] => true
  | T, s, e :: tr =>
    decide (T ≤ eventTime e) && eventOk e s && validFrom (eventTime e) (stepEvent e s) tr

/-- The items enqueued by a trace, in arrival order. -/
def enqueuedOf (tr : List ThrottleEvent) : List HeartbeatParams :=
  tr.filterMap fun e =>
    match e with
    | .enqueue _ p => some p
    | .fire _ _ => none

/-- The time of the last event of a trace (`T0` for the empty trace). -/
def endTimeOf (T0 : ℚ) (tr : List ThrottleEvent) : ℚ :=
  tr.foldl (fun _ e => eventTime e) T0

/-- Minimum spacing relation between two trigger timestamps. -/
def TriggerSep (a b : ℚ) : Prop :=
  a + minHeartbeatInterval ≤ b

instance : DecidableRel TriggerSep := fun _ _ => inferInstanceAs (Decidable (_ ≤ _))

/-- The match predicate of `checkForHeatwaveAtCurrentDate`:
`hb.heatwaveData && hb.heatwaveData.startDate.startsWith(currentYearMonth)`. -/
def heartbeatMatches (ym : List Char) (hb : HeartbeatParams) : Bool :=
  match hb.heatwaveData with
  | some hw => jsStartsWith hw.startDate ym
  | none => false

/-- Model of `checkForHeatwaveAtCurrentDate`: find the first heartbeat (in
iteration order) whose event start date begins with the current year-month
key; if found, prepend it to `allHeatwaves`, remember it in
`lastHeatwaveInfo`, append it to `displayedHeartbeats`, and hand it to
`queueHeartbeat`. -/
def checkForHeatwaveAtCurrentDate (now : ℚ) (s : AnimState) : AnimState :=
  if s.heartbeats.length = 0 then s
  else
    match s.heartbeats.find? (heartbeatMatches (currentYearMonth s.currentDate)) with
    | none => s
    | some matchingHeartbeat =>
      let s1 := { s with
        allHeatwaves := matchingHeartbeat :: s.allHeatwaves
        lastHeatwaveInfo := some matchingHeartbeat }
      let s2 :=
        match matchingHeartbeat.heatwaveData with
        | some hw =>
            { s1 with displayedHeartbeats := s1.displayedHeartbeats ++
                [{ year := matchingHeartbeat.year, temp := hw.highestTemp,
                   date := hw.startDate }] }
        | none => s1
      queueHeartbeat now matchingHeartbeat s2

/-- Model of `togglePause`: flip the `isPaused` flag (the source has a single
toggle handler; there are no separate pause and resume entry points). -/
def togglePause (s : AnimState) : AnimState :=
  { s with isPaused := !s.isPaused }

/-- Model of `startVisualization`.  When already running and not paused it
returns immediately.  Otherwise it sets the flags, resets the clock to
January 1911, clears every derived collection and counter, cancels the
tracked deferred-drain timer (`clearTimeout(queueProcessingTimeout)`), cancels
any previous animation frame and requests a fresh one (`newFrame` stands for
the id handed back by `requestAnimationFrame`). -/
def startVisualization (newFrame : ℕ) (s : AnimState) : AnimState :=
  if s.hasStarted && !s.isPaused then s
  else
    let s1 := { s with
      hasStarted := true
      isPaused := false
      currentDate := { year := 1911, month := 0 }
      lastMonthUpdateTime := 0
      displayedHeartbeats := []
      activeHeartbeats := []
      lastHeatwaveInfo := none
      heartbeatIdCounter := 0
      allHeatwaves := []
      lastHeartbeatTime := 0
      heartbeatQueue := [] }
    let s2 :=
      match s1.queueProcessingTimeout with
      | some tid =>
          { s1 with
            pendingTimers := s1.pendingTimers.filter fun t => t.id != tid
            queueProcessingTimeout := none }
      | none => s1
    { s2 with animationFrame := some newFrame }

/-- A concrete zero-amplitude parameter set (used to exercise the degenerate
flat-path edge case). -/
def zeroAmpParams : HeartbeatParams where
  pHeight := 0
  qDepth := 0
  rHeight := 0
  sDepth := 0
  tHeight := 0
  color := { r := 255, g := 50, b := 50, a := 1 }
  opacity := 0.8
  heatwaveData := none
  year := []
  duration := some 3

/-- A concrete heatwave record starting 1920-07-10. -/
def julyHeatwaveA : HeatwaveData where
  startDate := ['1', '9', '2', '0', '-', '0', '7', '-', '1', '0']
  endDate := ['1', '9', '2', '0', '-', '0', '7', '-', '1', '4']
  duration := 5
  tropicalDays := 2
  highestTemp := 35

/-- A second concrete heatwave record sharing the year-month 1920-07. -/
def julyHeatwaveB : HeatwaveData where
  startDate := ['1', '9', '2', '0', '-', '0', '7', '-', '2', '0']
  endDate := ['1', '9', '2', '0', '-', '0', '7', '-', '2', '5']
  duration := 6
  tropicalDays := 3
  highestTemp := 38

/-- A concrete started (running, unpaused) state. -/
def startedAnimState : AnimState :=
  { initAnimState [] with hasStarted := true }

/-- Concrete heartbeat parameters for `julyHeatwaveA`. -/
def julyParamsA : HeartbeatParams where
  pHeight := 10
  qDepth := 5
  rHeight := 100
  sDepth := 10
  tHeight := 15
  color := { r := 255, g := 50, b := 50, a := 1 }
  opacity := 1
  heatwaveData := some julyHeatwaveA
  year := ['1', '9', '2', '0']
  duration := some 5

/-- Concrete heartbeat parameters for `julyHeatwaveB` (same year-month key as
`julyParamsA`). -/
def julyParamsB : HeartbeatParams where
  pHeight := 12
  qDepth := 6
  rHeight := 120
  sDepth := 12
  tHeight := 18
  color := { r := 255, g := 50, b := 50, a := 1 }
  opacity := 1
  heatwaveData := some julyHeatwaveB
  year := ['1', '9', '2', '0']
  duration := some 6

/-- Unfolded form of the derived `rHeight`. -/
theorem rHeight_eq (randomFactor : ℚ) (hw : HeatwaveData) :
    (generateHeartbeatFromHeatwave randomFactor hw).rHeight
      = 50 + min (max (hw.highestTemp - 30) 0) 12 / 12 * 100 := by
  show (50 : ℚ) + min (max (hw.highestTemp - 30) 0) (42 - 30) / (42 - 30) * (150 - 50)
      = 50 + min (max (hw.highestTemp - 30) 0) 12 / 12 * 100
  norm_num

/-- C2: the derived `rHeight` produced by `generateHeartbeatFromHeatwave` is
monotonically non-decreasing in `peakTemperature` (`highestTemp`), equals
exactly 50 px for all temperatures at or below 30, equals exactly 150 px for
all temperatures at or above 42, and on [30, 42] equals
`50 + (temp - 30) / (42 - 30) * (150 - 50)`. -/
theorem C2_rHeight_temperature_scaling (randomFactor : ℚ) (hw : HeatwaveData) :
    (∀ hw' : HeatwaveData, hw'.highestTemp ≤ hw.highestTemp →
      (generateHeartbeatFromHeatwave randomFactor hw').rHeight
        ≤ (generateHeartbeatFromHeatwave randomFactor hw).rHeight)
    ∧ (hw.highestTemp ≤ 30 → (generateHeartbeatFromHeatwave randomFactor hw).rHeight = 50)
    ∧ (42 ≤ hw.highestTemp → (generateHeartbeatFromHeatwave randomFactor hw).rHeight = 150)
    ∧ (30 ≤ hw.highestTemp → hw.highestTemp ≤ 42 →
      (generateHeartbeatFromHeatwave randomFactor hw).rHeight
        = 50 + (hw.highestTemp - 30) / (42 - 30) * (150 - 50)) := by
  refine ⟨?_, ?_, ?_, ?_⟩
  · intro hw' hle
    rw [rHeight_eq, rHeight_eq]
    have h1 : max (hw'.highestTemp - 30) 0 ≤ max (hw.highestTemp - 30) 0 :=
      max_le_max (by linarith) le_rfl
    have h2 : min (max (hw'.highestTemp - 30) 0) 12 ≤ min (max (hw.highestTemp - 30) 0) 12 :=
      min_le_min h1 le_rfl
    linarith
  · intro h
    rw [rHeight_eq]
    have h1 : max (hw.highestTemp - 30) 0 = 0 := max_eq_right (by linarith)
    rw [h1]
    norm_num
  · intro h
    rw [rHeight_eq]
    have h1 : max (hw.highestTemp - 30) 0 = hw.highestTemp - 30 := max_eq_left (by linarith)
    rw [h1]
    have h2 : min (hw.highestTemp - 30) 12 = 12 := min_eq_right (by linarith)
    rw [h2]
    norm_num
  · intro h1 h2
    rw [rHeight_eq]
    have h3 : max (hw.highestTemp - 30) 0 = hw.highestTemp - 30 := max_eq_left (by linarith)
    rw [h3]
    have h4 : min (hw.highestTemp - 30) 12 = hw.highestTemp - 30 := min_eq_left (by linarith)
    rw [h4]
    norm_num

/-- Witness for C2 at temperature 38: rHeight = 50 + 8/12*100. -/
theorem C2_rHeight_temperature_scaling_witness :
    (generateHeartbeatFromHeatwave (1/2) julyHeatwaveB).rHeight
      = 50 + (38 - 30) / (42 - 30) * (150 - 50) :=
  (C2_rHeight_temperature_scaling (1/2) julyHeatwaveB).2.2.2 (by norm_num [julyHeatwaveB])
    (by norm_num [julyHeatwaveB])

/-- Unfolded form of the horizontal length scale factor for a present,
non-zero duration value. -/
theorem lengthScale_some_eq (d : ℚ) (hd : d ≠ 0) :
    lengthScale (some d) = 0.6 + min (max (d - 1) 0) 29 / 29 * 0.6 := by
  show (0.6 : ℚ) + min (max (jsOrDefault (some d) 5 - 1) 0) (30 - 1) / (30 - 1) * (1.2 - 0.6)
      = 0.6 + min (max (d - 1) 0) 29 / 29 * 0.6
  rw [jsOrDefault, if_neg hd]
  norm_num

/-- C5 counterexample: a negative duration is truthy in JS, so
`params.duration || 5` keeps it; it is then clamped to the minimum scale 0.6,
which differs from the scale factor of the default duration 5. -/
theorem C5_counterexample : lengthScale (some (-1)) ≠ lengthScale (some 5) := by
  have h1 : lengthScale (some (-1)) = 0.6 := by
    rw [lengthScale_some_eq (-1) (by norm_num)]
    norm_num
  have h2 : lengthScale (some 5) = 0.6 + 4 / 29 * 0.6 := by
    rw [lengthScale_some_eq 5 (by norm_num)]
    norm_num [max_eq_left, min_eq_left]
  rw [h1, h2]
  norm_num

/-- C5 (amended): the horizontal scale factor of `generateHeartlinePath` is
monotonically non-decreasing in duration on [1, 30], maps 1 to 0.6 and 30 to
1.2, is clamped to [0.6, 1.2] outside that range, and a duration of 0 (or an
absent one) yields exactly the scale of the default duration 5 - but a
negative duration is kept by `duration || 5` (negative numbers are truthy)
and is clamped to the minimum scale 0.6 instead of behaving like the
default. -/
theorem C5_lengthScale_amended :
    (∀ d1 d2 : ℚ, 1 ≤ d1 → d1 ≤ d2 → d2 ≤ 30 →
      lengthScale (some d1) ≤ lengthScale (some d2))
    ∧ lengthScale (some 1) = 0.6
    ∧ lengthScale (some 30) = 1.2
    ∧ (∀ d : ℚ, 0.6 ≤ lengthScale (some d) ∧ lengthScale (some d) ≤ 1.2)
    ∧ (∀ d : ℚ, 30 ≤ d → lengthScale (some d) = 1.2)
    ∧ (∀ d : ℚ, d < 0 → lengthScale (some d) = 0.6)
    ∧ lengthScale (some 0) = lengthScale (some 5)
    ∧ lengthScale none = lengthScale (some 5) := by
  have habs : lengthScale none = lengthScale (some 5) := by
    show (0.6 : ℚ) + min (max (jsOrDefault none 5 - 1) 0) (30 - 1) / (30 - 1) * (1.2 - 0.6)
        = lengthScale (some 5)
    rw [lengthScale_some_eq 5 (by norm_num)]
    norm_num [jsOrDefault]
  refine ⟨?_, ?_, ?_, ?_, ?_, ?_, ?_, habs⟩
  · intro d1 d2 h1 h12 h2
    rw [lengthScale_some_eq d1 (by linarith), lengthScale_some_eq d2 (by linarith)]
    have hmax : max (d1 - 1) 0 ≤ max (d2 - 1) 0 := max_le_max (by linarith) le_rfl
    have hmin : min (max (d1 - 1) 0) 29 ≤ min (max (d2 - 1) 0) 29 := min_le_min hmax le_rfl
    linarith
  · rw [lengthScale_some_eq 1 (by norm_num)]
    norm_num
  · rw [lengthScale_some_eq 30 (by norm_num)]
    norm_num
  · intro d
    by_cases hd : d = 0
    · subst hd
      have h0 : lengthScale (some 0) = lengthScale (some 5) := by
        show (0.6 : ℚ) + min (max (jsOrDefault (some 0) 5 - 1) 0) (30 - 1) / (30 - 1) * (1.2 - 0.6)
            = lengthScale (some 5)
        rw [lengthScale_some_eq 5 (by norm_num)]
        norm_num [jsOrDefault]
      rw [h0, lengthScale_some_eq 5 (by norm_num)]
      constructor <;> norm_num
    · rw [lengthScale_some_eq d hd]
      have hlow : (0 : ℚ) ≤ min (max (d - 1) 0) 29 :=
        le_min (le_max_right _ _) (by norm_num)
      have hhigh : min (max (d - 1) 0) 29 ≤ 29 := min_le_right _ _
      constructor <;> nlinarith
  · intro d hd
    rw [lengthScale_some_eq d (by linarith)]
    have h1 : max (d - 1) 0 = d - 1 := max_eq_left (by linarith)
    rw [h1]
    have h2 : min (d - 1) 29 = 29 := min_eq_right (by linarith)
    rw [h2]
    norm_num
  · intro d hd
    rw [lengthScale_some_eq d (by linarith)]
    have h1 : max (d - 1) 0 = 0 := max_eq_right (by linarith)
    rw [h1]
    norm_num
  · show (0.6 : ℚ) + min (max (jsOrDefault (some 0) 5 - 1) 0) (30 - 1) / (30 - 1) * (1.2 - 0.6)
        = lengthScale (some 5)
    rw [lengthScale_some_eq 5 (by norm_num)]
    norm_num [jsOrDefault]

/-- Witness for the amended C5 at durations 2 and 10. -/
theorem C5_lengthScale_amended_witness :
    lengthScale (some 2) ≤ lengthScale (some 10) :=
  C5_lengthScale_amended.1 2 10 (by norm_num) (by norm_num) (by norm_num)

/-- C6 counterexample: the code's only pause operation is `togglePause`, a
toggle of `isPaused`; invoking it twice from the running (unpaused) state
leaves the clock unpaused, which differs from invoking it once - so the pause
operation is not idempotent as the claim states. -/
theorem C6_counterexample :
    togglePause (togglePause startedAnimState) ≠ togglePause startedAnimState := by
  intro h
  have hb : (togglePause (togglePause startedAnimState)).isPaused
      = (togglePause startedAnimState).isPaused := by rw [h]
  simp [togglePause] at hb

/-- C6 (amended): pause/resume is implemented as the single toggle
`togglePause`; invoking it twice in a row restores the state exactly (the
toggle is an involution on the `isPaused` flag and changes nothing else), and
invoking it when the clock is not paused pauses the clock rather than being a
no-op. -/
theorem C6_togglePause_involution (s : AnimState) :
    togglePause (togglePause s) = s
    ∧ (togglePause s).isPaused = !s.isPaused
    ∧ (s.isPaused = false → (togglePause s).isPaused = true) := by
  refine ⟨?_, rfl, ?_⟩
  · cases s
    simp [togglePause]
  · intro h
    simp [togglePause, h]

/-- Witness for the amended C6 at the concrete started state. -/
theorem C6_togglePause_involution_witness :
    (togglePause startedAnimState).isPaused = true :=
  (C6_togglePause_involution startedAnimState).2.2 rfl

/-- C8: when the dataset fetch/parse throws, `loadHeatwaveData` recovers
locally - the non-fatal warning `loadError` is set to the thrown message,
exactly 30 synthetically generated fallback events are substituted as the
heartbeat list (a non-empty sequence), the loading flag is cleared, and no
error propagates (the model function is total). -/
theorem C8_load_failure_fallback (msg : List Char) (rnd : ℕ → RandomSource) :
    (loadHeatwaveData (.error msg) rnd).loadError = some msg
    ∧ (loadHeatwaveData (.error msg) rnd).loadError ≠ none
    ∧ (loadHeatwaveData (.error msg) rnd).heartbeats.length = 30
    ∧ (loadHeatwaveData (.error msg) rnd).heartbeats ≠ []
    ∧ (loadHeatwaveData (.error msg) rnd).isLoading = false := by
  refine ⟨rfl, by simp [loadHeatwaveData], by simp [loadHeatwaveData], ?_, rfl⟩
  have h : (loadHeatwaveData (.error msg) rnd).heartbeats.length = 30 := by
    simp [loadHeatwaveData]
  intro hnil
  rw [hnil] at h
  simp at h

/-- C9: `generateHeartlinePath` never divides by zero (the guarded variant
always succeeds, for every parameter set), and with all five amplitudes zero
every anchor point of the returned path lies exactly on the baseline - a
well-defined degenerate flat line, with no `NaN` coordinate. -/
theorem C9_zero_amplitude_flat_path (params : HeartbeatParams)
    (hp : params.pHeight = 0) (hq : params.qDepth = 0) (hr : params.rHeight = 0)
    (hs : params.sDepth = 0) (ht : params.tHeight = 0) :
    (∀ q : HeartbeatParams, generateHeartlinePathChecked q = some (generateHeartlinePath q))
    ∧ generateHeartlinePath params ≠ []
    ∧ (∀ pt ∈ generateHeartlinePath params, pt.2 = baselineY) := by
  refine ⟨?_, by simp [generateHeartlinePath, heartlinePoints], ?_⟩
  · intro q
    show (lengthScaleChecked q.duration).map (fun ls => heartlinePoints ls q)
        = some (heartlinePoints (lengthScale q.duration) q)
    have hchk : lengthScaleChecked q.duration = some (lengthScale q.duration) := by
      show (safeDiv (min (max (jsOrDefault q.duration 5 - 1) 0) (30 - 1)) (30 - 1)).map _
          = some (lengthScale q.duration)
      rw [safeDiv, if_neg (by norm_num : ¬((30 : ℚ) - 1 = 0))]
      rfl
    rw [hchk]
    rfl
  · intro pt hpt
    simp only [generateHeartlinePath, heartlinePoints, hp, hq, hr, hs, ht,
      List.mem_cons, List.not_mem_nil, or_false] at hpt
    rcases hpt with rfl | rfl | rfl | rfl | rfl | rfl | rfl | rfl | rfl | rfl | rfl | rfl |
      rfl | rfl | rfl | rfl | rfl | rfl | rfl | rfl | rfl | rfl | rfl | rfl | rfl | rfl |
      rfl | rfl <;> norm_num

/-- Witness for C9 at the concrete zero-amplitude parameter set: the path is
non-empty and every anchor point lies on the baseline. -/
theorem C9_zero_amplitude_flat_path_witness :
    generateHeartlinePath zeroAmpParams ≠ []
    ∧ (generateHeartlinePath zeroAmpParams).all (fun pt => pt.2 == baselineY) = true := by
  obtain ⟨-, hne, hflat⟩ := C9_zero_amplitude_flat_path zeroAmpParams rfl rfl rfl rfl rfl
  refine ⟨hne, List.all_eq_true.mpr ?_⟩
  intro pt hpt
  rw [beq_iff_eq]
  exact hflat pt hpt

/-- C4: a `startVisualization` call when not yet running sets the running
flag, unpauses, resets `currentDate` to January 1911, and clears all derived
state - the pulse queue, the active pulse set, the pulse id counter, both
matched-event histories, the last trigger time, and the tracked pending
queue-drain timer (under the invariant, maintained by the throttler, that
every pending deferred-retry timer's id is the one stored in
`queueProcessingTimeout`); a second call while already running and not paused
returns immediately and changes no state. -/
theorem C4_startVisualization_reset_and_noop (newFrame : ℕ) (s : AnimState) :
    (s.hasStarted = false →
      (startVisualization newFrame s).hasStarted = true
      ∧ (startVisualization newFrame s).isPaused = false
      ∧ (startVisualization newFrame s).currentDate = { year := 1911, month := 0 }
      ∧ (startVisualization newFrame s).heartbeatQueue = []
      ∧ (startVisualization newFrame s).activeHeartbeats = []
      ∧ (startVisualization newFrame s).heartbeatIdCounter = 0
      ∧ (startVisualization newFrame s).allHeatwaves = []
      ∧ (startVisualization newFrame s).displayedHeartbeats = []
      ∧ (startVisualization newFrame s).lastHeartbeatTime = 0
      ∧ (startVisualization newFrame s).queueProcessingTimeout = none
      ∧ ((∀ t ∈ s.pendingTimers, t.isRetry = true → s.queueProcessingTimeout = some t.id) →
          ∀ t ∈ (startVisualization newFrame s).pendingTimers, t.isRetry = false))
    ∧ (s.hasStarted = true → s.isPaused = false → startVisualization newFrame s = s) := by
  constructor
  · intro hns
    have hcond : (s.hasStarted && !s.isPaused) = false := by rw [hns]; rfl
    rw [startVisualization, hcond]
    simp only [Bool.false_eq_true, if_false]
    cases hq : s.queueProcessingTimeout with
    | none =>
      refine ⟨rfl, rfl, rfl, rfl, rfl, rfl, rfl, rfl, rfl, by simp [hq], ?_⟩
      intro hinv t ht
      simp only [hq] at ht
      by_contra hr
      have hr' : t.isRetry = true := by
        cases htr : t.isRetry
        · exact absurd htr hr
        · rfl
      exact Option.noConfusion (hinv t ht hr')
    | some tid =>
      refine ⟨rfl, rfl, rfl, rfl, rfl, rfl, rfl, rfl, rfl, by simp [hq], ?_⟩
      intro hinv t ht
      simp only [hq, List.mem_filter] at ht
      obtain ⟨htmem, htid⟩ := ht
      by_contra hr
      have hr' : t.isRetry = true := by
        cases htr : t.isRetry
        · exact absurd htr hr
        · rfl
      have heq := hinv t htmem hr'
      have : t.id = tid := by injection heq with h; exact h.symm
      simp [this] at htid
  · intro h1 h2
    rw [startVisualization]
    have hcond : (s.hasStarted && !s.isPaused) = true := by rw [h1, h2]; rfl
    rw [hcond]
    rfl

/-- Witness for C4: fresh start sets the flag; a second start on a running
unpaused state is the identity. -/
theorem C4_startVisualization_reset_and_noop_witness :
    (startVisualization 0 (initAnimState [])).hasStarted = true
    ∧ startVisualization 0 startedAnimState = startedAnimState :=
  ⟨((C4_startVisualization_reset_and_noop 0 (initAnimState [])).1 rfl).1,
    (C4_startVisualization_reset_and_noop 0 startedAnimState).2 rfl rfl⟩

/-- Frame lemma: draining the pulse queue never touches the matched-event
history fields, the loaded dataset or the clock. -/
theorem processHeartbeatQueue_frame (now : ℚ) (s : AnimState) :
    (processHeartbeatQueue now s).allHeatwaves = s.allHeatwaves
    ∧ (processHeartbeatQueue now s).displayedHeartbeats = s.displayedHeartbeats
    ∧ (processHeartbeatQueue now s).lastHeatwaveInfo = s.lastHeatwaveInfo
    ∧ (processHeartbeatQueue now s).heartbeats = s.heartbeats
    ∧ (processHeartbeatQueue now s).currentDate = s.currentDate := by
  cases hq : s.heartbeatQueue with
  | nil => simp [processHeartbeatQueue, hq]
  | cons p rest =>
    simp only [processHeartbeatQueue, hq]
    split
    · rw [triggerHeartbeat]
      split <;> simp
    · cases s.queueProcessingTimeout <;> simp

/-- C10: whenever the matcher finds an event on a clock tick, that event is
prepended to `allHeatwaves`, remembered in `lastHeatwaveInfo` and appended to
`displayedHeartbeats` exactly once, at match time - and this happens before
the pulse passes the throttler: if the queue was empty and the minimum
spacing has not yet elapsed, the trigger stays deferred (no new entry in the
trigger log, the item still queued) while the history entries already
exist. -/
theorem C10_history_recorded_at_match_time (now : ℚ) (s : AnimState)
    (m : HeartbeatParams)
    (hfind : s.heartbeats.find? (heartbeatMatches (currentYearMonth s.currentDate))
      = some m) :
    (checkForHeatwaveAtCurrentDate now s).allHeatwaves = m :: s.allHeatwaves
    ∧ (checkForHeatwaveAtCurrentDate now s).lastHeatwaveInfo = some m
    ∧ (∃ hw, m.heatwaveData = some hw
        ∧ (checkForHeatwaveAtCurrentDate now s).displayedHeartbeats
          = s.displayedHeartbeats
            ++ [{ year := m.year, temp := hw.highestTemp, date := hw.startDate }])
    ∧ (s.heartbeatQueue = [] → now - s.lastHeartbeatTime < minHeartbeatInterval →
        (checkForHeatwaveAtCurrentDate now s).triggerLog = s.triggerLog
        ∧ (checkForHeatwaveAtCurrentDate now s).heartbeatQueue = [m]) := by
  have hlen : ¬ s.heartbeats.length = 0 := by
    intro h0
    rw [List.length_eq_zero] at h0
    rw [h0] at hfind
    simp at hfind
  have hpm : heartbeatMatches (currentYearMonth s.currentDate) m = true :=
    List.find?_some hfind
  obtain ⟨hw, hhw⟩ : ∃ hw, m.heatwaveData = some hw := by
    cases hhw : m.heatwaveData with
    | some hw => exact ⟨hw, rfl⟩
    | none =>
      rw [heartbeatMatches, hhw] at hpm
      exact absurd hpm (by simp)
  have hcheck : checkForHeatwaveAtCurrentDate now s
      = queueHeartbeat now m { s with
          allHeatwaves := m :: s.allHeatwaves
          lastHeatwaveInfo := some m
          displayedHeartbeats := s.displayedHeartbeats
            ++ [{ year := m.year, temp := hw.highestTemp, date := hw.startDate }] } := by
    simp only [checkForHeatwaveAtCurrentDate, if_neg hlen, hfind, hhw]
  rw [hcheck, queueHeartbeat]
  obtain ⟨f1, f2, f3, f4, f5⟩ := processHeartbeatQueue_frame now
    { s with
      allHeatwaves := m :: s.allHeatwaves
      lastHeatwaveInfo := some m
      displayedHeartbeats := s.displayedHeartbeats
        ++ [{ year := m.year, temp := hw.highestTemp, date := hw.startDate }]
      heartbeatQueue := s.heartbeatQueue ++ [m] }
  refine ⟨by rw [f1], by rw [f3], ⟨hw, hhw, by rw [f2]⟩, ?_⟩
  intro hq0 hlt
  rw [hq0]
  constructor
  · rw [processHeartbeatQueue]
    simp only [List.nil_append]
    rw [if_neg (not_le.mpr hlt)]
    cases s.queueProcessingTimeout <;> simp
  · rw [processHeartbeatQueue]
    simp only [List.nil_append]
    rw [if_neg (not_le.mpr hlt)]
    cases s.queueProcessingTimeout <;> simp

/-- Witness for C10: a single-event dataset matched at July 1920 records the
event in the history. -/
theorem C10_history_recorded_at_match_time_witness :
    (checkForHeatwaveAtCurrentDate 100
        { initAnimState [julyParamsA] with
          currentDate := { year := 1920, month := 6 } }).allHeatwaves
      = [julyParamsA] :=
  (C10_history_recorded_at_match_time 100
    { initAnimState [julyParamsA] with
      currentDate := { year := 1920, month := 6 } }
    julyParamsA (by decide)).1

/-- The clock key always has exactly seven characters (`YYYY-MM`). -/
theorem currentYearMonth_length (d : SimDate) : (currentYearMonth d).length = 7 := by
  rw [currentYearMonth, monthStr]
  split <;> simp [yearStr]

/-- If some element at index `i` satisfies the predicate, `find?` returns the
element at the least satisfying index, which is at most `i`. -/
theorem find?_first_index {α : Type} (p : α → Bool) :
    ∀ (l : List α) (i : ℕ) (hi : i < l.length), p (l.get ⟨i, hi⟩) = true →
      ∃ k, ∃ hk : k < l.length, k ≤ i ∧ l.find? p = some (l.get ⟨k, hk⟩) := by
  intro l
  induction l with
  | nil => intro i hi; exact absurd hi (Nat.not_lt_zero i)
  | cons a t ih =>
    intro i hi hp
    cases hpa : p a with
    | true =>
      exact ⟨0, Nat.succ_pos _, Nat.zero_le i, by simp [List.find?_cons, hpa]⟩
    | false =>
      cases i with
      | zero => rw [List.get] at hp; rw [hpa] at hp; exact Bool.noConfusion hp
      | succ n =>
        have hn : n < t.length := Nat.lt_of_succ_lt_succ hi
        have hpn : p (t.get ⟨n, hn⟩) = true := hp
        obtain ⟨k, hk, hki, hfind⟩ := ih n hn hpn
        exact ⟨k + 1, Nat.succ_lt_succ hk, Nat.succ_le_succ hki,
          by simp [List.find?_cons, hpa, hfind]⟩

/-- C3: when two events share the same start year-month key, a clock tick can
only ever dispatch the one that comes first in iteration order: whenever the
later event matches the current clock key, `find?` selects an index at most
`i < j`, so `checkForHeatwaveAtCurrentDate` dispatches that earlier event and
the event at index `j` is never matched for the remainder of the run. -/
theorem C3_same_key_first_in_order_wins
    (hbs : List HeartbeatParams) (i j : ℕ) (hij : i < j) (hj : j < hbs.length)
    (hwi hwj : HeatwaveData)
    (hdi : (hbs.get ⟨i, lt_trans hij hj⟩).heatwaveData = some hwi)
    (hdj : (hbs.get ⟨j, hj⟩).heatwaveData = some hwj)
    (hkey : yearMonthKey hwi = yearMonthKey hwj)
    (d : SimDate)
    (hmatch : heartbeatMatches (currentYearMonth d) (hbs.get ⟨j, hj⟩) = true) :
    ∃ k, ∃ hk : k < hbs.length, k ≤ i
      ∧ hbs.find? (heartbeatMatches (currentYearMonth d)) = some (hbs.get ⟨k, hk⟩)
      ∧ ∀ (now : ℚ) (s : AnimState), s.heartbeats = hbs → s.currentDate = d →
          (checkForHeatwaveAtCurrentDate now s).lastHeatwaveInfo
            = some (hbs.get ⟨k, hk⟩) := by
  have hpre_j : currentYearMonth d <+: hwj.startDate := by
    simp only [heartbeatMatches, hdj, jsStartsWith] at hmatch
    exact of_decide_eq_true hmatch
  have hym : currentYearMonth d = hwj.startDate.take 7 := by
    have h7 := currentYearMonth_length d
    have := List.prefix_iff_eq_take.mp hpre_j
    rw [h7] at this
    exact this
  have hym_i : currentYearMonth d = hwi.startDate.take 7 := by
    rw [hym]
    have : hwi.startDate.take 7 = hwj.startDate.take 7 := hkey
    rw [this]
  have hpre_i : currentYearMonth d <+: hwi.startDate := by
    rw [hym_i]
    exact List.take_prefix 7 hwi.startDate
  have hmi : heartbeatMatches (currentYearMonth d) (hbs.get ⟨i, lt_trans hij hj⟩) = true := by
    simp only [heartbeatMatches, hdi, jsStartsWith]
    exact decide_eq_true hpre_i
  obtain ⟨k, hk, hki, hfind⟩ :=
    find?_first_index (heartbeatMatches (currentYearMonth d)) hbs i (lt_trans hij hj) hmi
  refine ⟨k, hk, hki, hfind, ?_⟩
  intro now s hsh hsd
  have hlen : ¬ s.heartbeats.length = 0 := by
    rw [hsh]
    intro h0
    rw [List.length_eq_zero] at h0
    rw [h0] at hj
    exact Nat.not_lt_zero j hj
  have hfind' : s.heartbeats.find? (heartbeatMatches (currentYearMonth s.currentDate))
      = some (hbs.get ⟨k, hk⟩) := by
    rw [hsh, hsd]
    exact hfind
  exact (C10_history_recorded_at_match_time now s (hbs.get ⟨k, hk⟩) hfind').2.1

/-- Witness for C3: two concrete events share the key 1920-07; on the
1920-07 tick the matcher dispatches the first (index 0). -/
theorem C3_same_key_first_in_order_wins_witness :
    ∃ k, ∃ hk : k < [julyParamsA, julyParamsB].length, k ≤ 0
      ∧ [julyParamsA, julyParamsB].find?
          (heartbeatMatches (currentYearMonth { year := 1920, month := 6 }))
        = some ([julyParamsA, julyParamsB].get ⟨k, hk⟩)
      ∧ ∀ (now : ℚ) (s : AnimState),
          s.heartbeats = [julyParamsA, julyParamsB] →
          s.currentDate = { year := 1920, month := 6 } →
          (checkForHeatwaveAtCurrentDate now s).lastHeatwaveInfo
            = some ([julyParamsA, julyParamsB].get ⟨k, hk⟩) :=
  C3_same_key_first_in_order_wins [julyParamsA, julyParamsB] 0 1 (by decide) (by decide)
    julyHeatwaveA julyHeatwaveB (by decide) (by decide) (by decide)
    { year := 1920, month := 6 } (by decide)

instance : IsTrans ℚ TriggerSep where
  trans a b c hab hbc := by
    rw [TriggerSep, minHeartbeatInterval] at *
    linarith

/-- The value of `lastHeartbeatTime` dictated by the trigger log: 0 initially,
else the time of the most recent trigger. -/
def lastLogTime (log : List (ℚ × HeartbeatParams)) : ℚ :=
  ((log.map Prod.fst).getLast?).getD 0

/-- Inductive invariant of the pulse-queue throttler, at current time `T`:
consecutive trigger timestamps are at least the minimum spacing apart,
`lastHeartbeatTime` records the last trigger (and is in the past), every
pending deferred-retry timer is the tracked one, at most one deferred-retry
timer is pending, and a non-empty queue always has some pending timer. -/
structure ThrottleInv (T : ℚ) (s : AnimState) : Prop where
  gap : List.Chain' TriggerSep (s.triggerLog.map Prod.fst)
  lastEq : s.lastHeartbeatTime = lastLogTime s.triggerLog
  lastLe : s.lastHeartbeatTime ≤ T
  retryVar : ∀ t ∈ s.pendingTimers, t.isRetry = true → s.queueProcessingTimeout = some t.id
  retryCount : (s.pendingTimers.filter fun t => t.isRetry).length ≤ 1
  queueTimer : s.heartbeatQueue ≠ [] → s.pendingTimers ≠ []

/-- The initial state satisfies the throttler invariant at time 0. -/
theorem initAnimState_inv (hbs : List HeartbeatParams) :
    ThrottleInv 0 (initAnimState hbs) := by
  refine ⟨?_, rfl, le_refl 0, ?_, ?_, ?_⟩
  · simp [initAnimState]
  · intro t ht
    simp [initAnimState] at ht
  · simp [initAnimState]
  · intro h
    exact absurd rfl h

/-- Draining the queue preserves the throttler invariant (established at the
drain time `now`); the invariant's queue-timer component is re-established
unconditionally by the drain itself. -/
theorem processHeartbeatQueue_inv (now : ℚ) (s : AnimState)
    (hgap : List.Chain' TriggerSep (s.triggerLog.map Prod.fst))
    (hlastEq : s.lastHeartbeatTime = lastLogTime s.triggerLog)
    (hlastLe : s.lastHeartbeatTime ≤ now)
    (hretryVar : ∀ t ∈ s.pendingTimers, t.isRetry = true →
      s.queueProcessingTimeout = some t.id)
    (hretryCount : (s.pendingTimers.filter fun t => t.isRetry).length ≤ 1) :
    ThrottleInv now (processHeartbeatQueue now s) := by
  cases hq : s.heartbeatQueue with
  | nil =>
    simp only [processHeartbeatQueue, hq]
    exact ⟨hgap, hlastEq, hlastLe, hretryVar, hretryCount, fun h => absurd hq h⟩
  | cons p rest =>
    simp only [processHeartbeatQueue, hq]
    by_cases h400 : minHeartbeatInterval ≤ now - s.lastHeartbeatTime
    · rw [if_pos h400]
      simp only [triggerHeartbeat]
      have hgap' : List.Chain' TriggerSep ((s.triggerLog ++ [(now, p)]).map Prod.fst) := by
        rw [List.map_append]
        rw [List.chain'_append]
        refine ⟨hgap, List.chain'_singleton now, ?_⟩
        intro x hx y hy
        simp at hy
        subst hy
        have hxlast : x = lastLogTime s.triggerLog := by
          rw [lastLogTime, hx]
          rfl
        rw [TriggerSep, hxlast, ← hlastEq]
        linarith [h400]
      have hlastEq' : now = lastLogTime (s.triggerLog ++ [(now, p)]) := by
        rw [lastLogTime, List.map_append, List.getLast?_append]
        rfl
      by_cases hrest : 0 < rest.length
      · rw [if_pos hrest]
        refine ⟨hgap', hlastEq', le_refl now, ?_, ?_, ?_⟩
        · intro t ht htr
          rw [List.mem_append] at ht
          rcases ht with ht | ht
          · exact hretryVar t ht htr
          · simp at ht
            rw [ht] at htr
            exact Bool.noConfusion htr
        · rw [List.filter_append]
          simp only [List.filter]
          simpa using hretryCount
        · intro _
          simp
      · rw [if_neg hrest]
        have hrest' : rest = [] := by
          rw [List.length_pos] at hrest
          exact not_not.mp hrest
        refine ⟨hgap', hlastEq', le_refl now, hretryVar, hretryCount, ?_⟩
        intro hne
        exact absurd hrest' hne
    · rw [if_neg h400]
      cases hto : s.queueProcessingTimeout with
      | none =>
        have hnone : ∀ t ∈ s.pendingTimers, t.isRetry = false := by
          intro t ht
          cases htr : t.isRetry
          · rfl
          · have := hretryVar t ht htr
            rw [hto] at this
            exact Option.noConfusion this
        refine ⟨hgap, hlastEq, hlastLe, ?_, ?_, ?_⟩
        · intro t ht htr
          rw [List.mem_append] at ht
          rcases ht with ht | ht
          · exact absurd htr (by rw [hnone t ht]; exact Bool.noConfusion)
          · simp at ht
            rw [ht]
        · rw [List.filter_append]
          have hnil : s.pendingTimers.filter (fun t => t.isRetry) = [] := by
            rw [ List.filter_eq_nil_iff]
            intro t ht
            rw [hnone t ht]
            exact Bool.noConfusion
          rw [hnil]
          simp
        · intro _
          simp
      | some tid =>
        have hnoretry : ∀ t ∈ s.pendingTimers.filter (fun u => u.id != tid),
            t.isRetry = false := by
          intro t ht
          rw [List.mem_filter] at ht
          obtain ⟨htm, htid⟩ := ht
          cases htr : t.isRetry
          · rfl
          · have := hretryVar t htm htr
            rw [hto] at this
            have hid : tid = t.id := by injection this
            rw [bne_iff_ne] at htid
            exact absurd hid.symm htid
        refine ⟨hgap, hlastEq, hlastLe, ?_, ?_, ?_⟩
        · intro t ht htr
          rw [List.mem_append] at ht
          rcases ht with ht | ht
          · exact absurd htr (by rw [hnoretry t ht]; exact Bool.noConfusion)
          · simp at ht
            rw [ht]
        · rw [List.filter_append]
          have hnil : (s.pendingTimers.filter (fun u => u.id != tid)).filter
              (fun t => t.isRetry) = [] := by
            rw [ List.filter_eq_nil_iff]
            intro t ht
            rw [hnoretry t ht]
            exact Bool.noConfusion
          rw [hnil]
          simp
        · intro _
          simp

/-- Draining moves items from the queue to the trigger log without loss,
duplication or reordering. -/
theorem processHeartbeatQueue_fifo (now : ℚ) (s : AnimState) :
    (processHeartbeatQueue now s).triggerLog.map Prod.snd
        ++ (processHeartbeatQueue now s).heartbeatQueue
      = s.triggerLog.map Prod.snd ++ s.heartbeatQueue := by
  cases hq : s.heartbeatQueue with
  | nil => simp [processHeartbeatQueue, hq]
  | cons p rest =>
    simp only [processHeartbeatQueue, hq]
    split
    · simp only [triggerHeartbeat]
      split <;> simp
    · cases s.queueProcessingTimeout <;> simp [hq]

/-- Queue/trigger-log bookkeeping of one event: an enqueue adds its item at
the tail, a timer firing adds nothing. -/
theorem stepEvent_fifo (e : ThrottleEvent) (s : AnimState) :
    (stepEvent e s).triggerLog.map Prod.snd ++ (stepEvent e s).heartbeatQueue
      = s.triggerLog.map Prod.snd ++ s.heartbeatQueue ++ enqueuedOf [e] := by
  cases e with
  | enqueue now p =>
    rw [stepEvent, queueHeartbeat, processHeartbeatQueue_fifo]
    simp [enqueuedOf]
  | fire now tid =>
    rw [stepEvent, fireTimer, processHeartbeatQueue_fifo]
    simp [enqueuedOf]

/-- One valid event preserves the throttler invariant, re-established at the
event's time. -/
theorem stepEvent_inv (e : ThrottleEvent) (T : ℚ) (s : AnimState)
    (hinv : ThrottleInv T s) (hT : T ≤ eventTime e) (hok : eventOk e s = true) :
    ThrottleInv (eventTime e) (stepEvent e s) := by
  cases e with
  | enqueue now p =>
    rw [stepEvent, queueHeartbeat]
    refine processHeartbeatQueue_inv now _ hinv.gap hinv.lastEq ?_ hinv.retryVar
      hinv.retryCount
    exact le_trans hinv.lastLe hT
  | fire now tid =>
    rw [stepEvent, fireTimer]
    refine processHeartbeatQueue_inv now _ hinv.gap hinv.lastEq ?_ ?_ ?_
    · exact le_trans hinv.lastLe hT
    · intro t ht htr
      rw [List.mem_filter] at ht
      exact hinv.retryVar t ht.1 htr
    · calc ((s.pendingTimers.filter fun t => t.id != tid).filter
            fun t => t.isRetry).length
          ≤ (s.pendingTimers.filter fun t => t.isRetry).length :=
            List.Sublist.length_le
              (List.Sublist.filter _ (List.filter_sublist s.pendingTimers))
      _ ≤ 1 := hinv.retryCount

/-- Running a valid trace preserves the throttler invariant and accounts for
every enqueued item exactly once, in order: the final trigger log followed by
the final queue is exactly the initial log, initial queue and the newly
enqueued items. -/
theorem runTrace_inv (tr : List ThrottleEvent) :
    ∀ (T : ℚ) (s : AnimState), ThrottleInv T s → validFrom T s tr = true →
      ThrottleInv (endTimeOf T tr) (runTrace s tr)
      ∧ (runTrace s tr).triggerLog.map Prod.snd ++ (runTrace s tr).heartbeatQueue
        = s.triggerLog.map Prod.snd ++ s.heartbeatQueue ++ enqueuedOf tr := by
  induction tr with
  | nil =>
    intro T s hinv _
    exact ⟨hinv, by simp [runTrace, enqueuedOf]⟩
  | cons e tr ih =>
    intro T s hinv hvalid
    rw [validFrom] at hvalid
    simp only [Bool.and_eq_true, decide_eq_true_eq] at hvalid
    obtain ⟨⟨hT, hok⟩, hrest⟩ := hvalid
    have hstep := stepEvent_inv e T s hinv hT hok
    obtain ⟨hfin, heq⟩ := ih (eventTime e) (stepEvent e s) hstep hrest
    refine ⟨hfin, ?_⟩
    have hone := stepEvent_fifo e s
    have : enqueuedOf (e :: tr) = enqueuedOf [e] ++ enqueuedOf tr := by
      cases e <;> simp [enqueuedOf]
    rw [show runTrace s (e :: tr) = runTrace (stepEvent e s) tr from rfl, heq, hone, this]
    simp [List.append_assoc]

/-- `triggerHeartbeat` leaves the queue untouched. -/
theorem triggerHeartbeat_queue (now : ℚ) (p : HeartbeatParams) (u : AnimState) :
    (triggerHeartbeat now p u).heartbeatQueue = u.heartbeatQueue := by
  rw [triggerHeartbeat]
  split <;> rfl

/-- `triggerHeartbeat` appends exactly one entry to the trigger log. -/
theorem triggerHeartbeat_log (now : ℚ) (p : HeartbeatParams) (u : AnimState) :
    (triggerHeartbeat now p u).triggerLog = u.triggerLog ++ [(now, p)] := by
  rw [triggerHeartbeat]
  split <;> rfl

/-- Liveness: from any state satisfying the throttler invariant there is a
finite sequence of timer firings (at late enough times) after which the queue
is empty and every queued item has been triggered, in order, with the
invariant maintained throughout. -/
theorem drain_all (n : ℕ) :
    ∀ (T : ℚ) (s : AnimState), ThrottleInv T s → s.heartbeatQueue.length = n →
      ∃ ext : List ThrottleEvent,
        validFrom T s ext = true
        ∧ (∀ e ∈ ext, ∃ now tid, e = ThrottleEvent.fire now tid)
        ∧ (runTrace s ext).heartbeatQueue = []
        ∧ (runTrace s ext).triggerLog.map Prod.snd
          = s.triggerLog.map Prod.snd ++ s.heartbeatQueue
        ∧ ThrottleInv (endTimeOf T ext) (runTrace s ext) := by
  induction n with
  | zero =>
    intro T s hinv hn
    rw [List.length_eq_zero] at hn
    exact ⟨[], rfl, by simp, by simp [runTrace, hn], by simp [runTrace, hn], hinv⟩
  | succ n ih =>
    intro T s hinv hn
    cases hq : s.heartbeatQueue with
    | nil =>
      rw [hq] at hn
      exact absurd hn (by simp)
    | cons p rest =>
      have hpend : s.pendingTimers ≠ [] := hinv.queueTimer (by rw [hq]; simp)
      cases hpt : s.pendingTimers with
      | nil => exact absurd hpt hpend
      | cons t ts =>
        have htmem : t ∈ s.pendingTimers := by
          rw [hpt]
          exact List.mem_cons_self t ts
        have hTnow : T ≤ max T (max t.deadline (s.lastHeartbeatTime + minHeartbeatInterval)) :=
          le_max_left _ _
        have hdl : t.deadline
            ≤ max T (max t.deadline (s.lastHeartbeatTime + minHeartbeatInterval)) :=
          le_trans (le_max_left _ _) (le_max_right _ _)
        have hlastle : s.lastHeartbeatTime + minHeartbeatInterval
            ≤ max T (max t.deadline (s.lastHeartbeatTime + minHeartbeatInterval)) :=
          le_trans (le_max_right _ _) (le_max_right _ _)
        set now := max T (max t.deadline (s.lastHeartbeatTime + minHeartbeatInterval))
          with hnowdef
        have h400 : minHeartbeatInterval ≤ now - s.lastHeartbeatTime := by linarith
        have hok : eventOk (ThrottleEvent.fire now t.id) s = true := by
          rw [eventOk, List.any_eq_true]
          exact ⟨t, htmem, by simp [hdl]⟩
        have hinvstep : ThrottleInv now (fireTimer now t.id s) :=
          stepEvent_inv (ThrottleEvent.fire now t.id) T s hinv hTnow hok
        have hfire : fireTimer now t.id s
            = triggerHeartbeat now p { s with
                pendingTimers := s.pendingTimers.filter fun u => u.id != t.id
                heartbeatQueue := rest } := by
          rw [fireTimer]
          simp only [processHeartbeatQueue, hq]
          rw [if_pos h400]
        have hlen : (fireTimer now t.id s).heartbeatQueue.length = n := by
          rw [hfire, triggerHeartbeat_queue]
          have : (p :: rest).length = n + 1 := by rw [← hq, hn]
          simpa using this
        obtain ⟨ext, hv, hf, hqe, hlg, hinvfin⟩ :=
          ih now (fireTimer now t.id s) hinvstep hlen
        refine ⟨ThrottleEvent.fire now t.id :: ext, ?_, ?_, hqe, ?_, hinvfin⟩
        · rw [validFrom]
          simp only [Bool.and_eq_true, decide_eq_true_eq]
          exact ⟨⟨hTnow, hok⟩, hv⟩
        · intro e he
          rcases List.mem_cons.mp he with he | he
          · exact ⟨now, t.id, he⟩
          · exact hf e he
        · rw [show runTrace s (ThrottleEvent.fire now t.id :: ext)
              = runTrace (fireTimer now t.id s) ext from rfl]
          rw [hlg, hfire, triggerHeartbeat_log, triggerHeartbeat_queue]
          simp [hq]

/-- C1: for every valid sequence of enqueue calls (arriving at arbitrary,
possibly coinciding, times) interleaved with timer firings, (a) the
timestamps recorded by `triggerHeartbeat` in `lastHeartbeatTime` are pairwise
separated by at least the 400 ms minimum spacing, (b) the triggered items
followed by the still-queued items are exactly the enqueued items in arrival
order (nothing lost, duplicated or reordered), and (c) a finite sequence of
further timer firings exists after which every enqueued item has been
triggered exactly once, in FIFO order, still with the minimum spacing. -/
theorem C1_throttler_spacing_fifo_liveness (hbs : List HeartbeatParams)
    (tr : List ThrottleEvent)
    (hvalid : validFrom 0 (initAnimState hbs) tr = true) :
    List.Pairwise TriggerSep
        ((runTrace (initAnimState hbs) tr).triggerLog.map Prod.fst)
    ∧ (runTrace (initAnimState hbs) tr).triggerLog.map Prod.snd
        ++ (runTrace (initAnimState hbs) tr).heartbeatQueue = enqueuedOf tr
    ∧ ∃ ext : List ThrottleEvent,
        validFrom (endTimeOf 0 tr) (runTrace (initAnimState hbs) tr) ext = true
        ∧ (∀ e ∈ ext, ∃ now tid, e = ThrottleEvent.fire now tid)
        ∧ (runTrace (runTrace (initAnimState hbs) tr) ext).heartbeatQueue = []
        ∧ (runTrace (runTrace (initAnimState hbs) tr) ext).triggerLog.map Prod.snd
            = enqueuedOf tr
        ∧ List.Pairwise TriggerSep
            ((runTrace (runTrace (initAnimState hbs) tr) ext).triggerLog.map Prod.fst) := by
  obtain ⟨hinv, hfifo⟩ := runTrace_inv tr 0 (initAnimState hbs) (initAnimState_inv hbs) hvalid
  have hfifo' : (runTrace (initAnimState hbs) tr).triggerLog.map Prod.snd
      ++ (runTrace (initAnimState hbs) tr).heartbeatQueue = enqueuedOf tr := by
    rw [hfifo]
    simp [initAnimState]
  refine ⟨List.chain'_iff_pairwise.mp hinv.gap, hfifo', ?_⟩
  obtain ⟨ext, hv, hf, hqe, hlg, hinvfin⟩ :=
    drain_all (runTrace (initAnimState hbs) tr).heartbeatQueue.length (endTimeOf 0 tr)
      (runTrace (initAnimState hbs) tr) hinv rfl
  refine ⟨ext, hv, hf, hqe, ?_, List.chain'_iff_pairwise.mp hinvfin.gap⟩
  rw [hlg]
  exact hfifo'

/-- Witness for C1: a single enqueue at time 400 is accounted for by the
trigger log and queue. -/
theorem C1_throttler_spacing_fifo_liveness_witness :
    validFrom 0 (initAnimState []) [ThrottleEvent.enqueue 400 julyParamsA] = true
    ∧ (runTrace (initAnimState []) [ThrottleEvent.enqueue 400 julyParamsA]).triggerLog.map
          Prod.snd
        ++ (runTrace (initAnimState [])
            [ThrottleEvent.enqueue 400 julyParamsA]).heartbeatQueue
      = enqueuedOf [ThrottleEvent.enqueue 400 julyParamsA] :=
  ⟨by decide,
    (C1_throttler_spacing_fifo_liveness [] [ThrottleEvent.enqueue 400 julyParamsA]
      (by decide)).2.1⟩

/-- C7: in every reachable throttler state at most one deferred retry timer is
pending (scheduling a new retry cancels the previously tracked one), and a
drained trigger schedules the follow-up queue-drain timer exactly when items
remain in the queue. -/
theorem C7_single_pending_retry_timer (hbs : List HeartbeatParams)
    (tr : List ThrottleEvent)
    (hvalid : validFrom 0 (initAnimState hbs) tr = true) :
    ((runTrace (initAnimState hbs) tr).pendingTimers.filter
        fun t => t.isRetry).length ≤ 1
    ∧ (∀ (now : ℚ) (p : HeartbeatParams) (u : AnimState), u.heartbeatQueue = [] →
        (triggerHeartbeat now p u).pendingTimers = u.pendingTimers)
    ∧ (∀ (now : ℚ) (p : HeartbeatParams) (u : AnimState), u.heartbeatQueue ≠ [] →
        (triggerHeartbeat now p u).pendingTimers
          = u.pendingTimers
            ++ [{ id := u.nextTimerId, deadline := now + minHeartbeatInterval,
                  isRetry := false }]) := by
  refine ⟨(runTrace_inv tr 0 (initAnimState hbs) (initAnimState_inv hbs) hvalid).1.retryCount,
    ?_, ?_⟩
  · intro now p u hu
    rw [triggerHeartbeat]
    rw [if_neg (by simp [hu])]
  · intro now p u hu
    rw [triggerHeartbeat]
    rw [if_pos (by simpa [List.length_pos] using hu)]

/-- Witness for C7: after one enqueue at time 100 (deferred, since the
initial last-trigger time is 0) at most one retry timer is pending. -/
theorem C7_single_pending_retry_timer_witness :
    ((runTrace (initAnimState []) [ThrottleEvent.enqueue 100 julyParamsB]).pendingTimers.filter
        fun t => t.isRetry).length ≤ 1 :=
  (C7_single_pending_retry_timer [] [ThrottleEvent.enqueue 100 julyParamsB] (by decide)).1
